import Mathlib

/-!
Verification of the terminal-size library (src/src/unix.rs).

The library queries the terminal geometry of standard output in two
tiers: a device query through isatty plus an ioctl TIOCGWINSZ call, and
an environment fallback reading COLUMNS and LINES. The dispatcher
terminal_size sends exactly the present pair (Width 0, Height 0) from
the device tier to the environment tier.

The embedding makes the two external observations explicit arguments:
a DeviceState records what isatty and the ioctl call would report for
standard output, and an EnvMap records the process environment. All
c_ushort fields are embedded as Nat (the values an unsigned 16-bit
field can hold). A panic of the Rust code (an unwrap that fails) is
embedded as the error case of Except.
-/

/-- Modelled from the spec: the crate root (not under src/) defines Width as a
named wrapper around an unsigned 16-bit column count. -/
structure Width where
  val : Nat
deriving DecidableEq

/-- Modelled from the spec: the crate root (not under src/) defines Height as a
named wrapper around an unsigned 16-bit row count. -/
structure Height where
  val : Nat
deriving DecidableEq

/-- The WinSize record of unix.rs: four c_ushort fields filled by the
TIOCGWINSZ ioctl. -/
structure WinSize where
  ws_row : Nat
  ws_col : Nat
  ws_xpixel : Nat
  ws_ypixel : Nat
deriving DecidableEq

/-- What the operating system reports about standard output: whether
isatty answers 1, and the WinSize the ioctl call fills in. -/
structure DeviceState where
  isTty : Bool
  winsize : WinSize
deriving DecidableEq

/-- A raw environment value as returned by env::var_os: either valid
Unicode text or a non-Unicode OS string (on which into_string fails). -/
inductive OsString where
  | unicode (s : String)
  | nonUnicode
deriving DecidableEq

/-- The process environment: a map from variable name to the raw value,
none when the variable is unset. -/
def EnvMap : Type := String → Option OsString

/-- The COLUMNS variable name. -/
def COLUMNS : String := "COLUMNS"

/-- The LINES variable name. -/
def LINES : String := "LINES"

/-- The ways the Rust code can panic inside terminal_size_using_env:
the into_string unwrap on a non-Unicode value, or the parse unwrap on
text that is not a u16 numeral. -/
inductive Panic where
  | notUnicode
  | parseFail
deriving DecidableEq

/-- Rust str::parse::<u16>: an optional leading plus sign, then a
nonempty run of decimal digits whose value fits in 16 bits; anything
else fails. -/
def parseU16 (s : String) : Option Nat :=
  let cs := s.toList
  let ds := match cs with
    | '+' :: rest => rest
    | _ => cs
  if ds.isEmpty then none
  else if ds.all (fun c => c.isDigit) then
    let v := ds.foldl (fun a c => a * 10 + (c.toNat - 48)) 0
    if v < 65536 then some v else none
  else none

/-- The get_u16_from_env closure of terminal_size_using_env: unset
yields 0; a set value is converted to text (panicking when not Unicode)
and parsed as u16 (panicking when the parse fails). -/
def get_u16_from_env (env : EnvMap) (x : String) : Except Panic Nat :=
  match env x with
  | some v =>
    match v with
    | OsString.unicode s =>
      match parseU16 s with
      | some n => Except.ok n
      | none => Except.error Panic.parseFail
    | OsString.nonUnicode => Except.error Panic.notUnicode
  | none => Except.ok 0

/-- terminal_size_using_fd of unix.rs: none when standard output is not
a tty; otherwise the ioctl report with each field clamped to 0 when not
strictly positive, wrapped as some (Width cols, Height rows). -/
def terminal_size_using_fd (d : DeviceState) : Option (Width × Height) :=
  if !d.isTty then none
  else
    let rows := if d.winsize.ws_row > 0 then d.winsize.ws_row else 0
    let cols := if d.winsize.ws_col > 0 then d.winsize.ws_col else 0
    some (Width.mk cols, Height.mk rows)

/-- terminal_size_using_env of unix.rs: read COLUMNS, then LINES (a
panic in either propagates); none when both parsed values are 0, else
some (Width c, Height r). -/
def terminal_size_using_env (env : EnvMap) : Except Panic (Option (Width × Height)) :=
  match get_u16_from_env env COLUMNS with
  | Except.error e => Except.error e
  | Except.ok c =>
    match get_u16_from_env env LINES with
    | Except.error e => Except.error e
    | Except.ok r =>
      if r == 0 && c == 0 then Except.ok none
      else Except.ok (some (Width.mk c, Height.mk r))

/-- terminal_size of unix.rs: the device query, with exactly the
present pair (Width 0, Height 0) replaced by the environment fallback. -/
def terminal_size (d : DeviceState) (env : EnvMap) : Except Panic (Option (Width × Height)) :=
  let size := terminal_size_using_fd d
  match size with
  | some (⟨0⟩, ⟨0⟩) => terminal_size_using_env env
  | _ => Except.ok size

/-- A device state that is not a tty. -/
def devNoTty : DeviceState := ⟨false, ⟨0, 0, 0, 0⟩⟩

/-- A tty whose ioctl reports zero in both dimensions. -/
def devTtyZero : DeviceState := ⟨true, ⟨0, 0, 0, 0⟩⟩

/-- A tty whose ioctl reports 24 rows and 80 columns. -/
def devTty80x24 : DeviceState := ⟨true, ⟨24, 80, 0, 0⟩⟩

/-- An environment with nothing set. -/
def envEmpty : EnvMap := fun _ => none

/-- The text of the numeral 80. -/
def str80 : String := "80"

/-- The text of the numeral 24. -/
def str24 : String := "24"

/-- A non-numeric text value. -/
def strAbc : String := "abc"

/-- An environment with COLUMNS set to 80 and LINES set to 24. -/
def env80x24 : EnvMap := fun x =>
  if x = COLUMNS then some (OsString.unicode str80)
  else if x = LINES then some (OsString.unicode str24)
  else none

/-- An environment whose COLUMNS value is non-numeric text. -/
def envBadCols : EnvMap := fun x =>
  if x = COLUMNS then some (OsString.unicode strAbc) else none

/-- An environment whose COLUMNS value is not valid Unicode. -/
def envNonUnicodeCols : EnvMap := fun x =>
  if x = COLUMNS then some OsString.nonUnicode else none

example : parseU16 str80 = some 80 := rfl
example : parseU16 strAbc = none := rfl
example : terminal_size devTty80x24 envEmpty = Except.ok (some (⟨80⟩, ⟨24⟩)) := rfl
example : terminal_size devNoTty env80x24 = Except.ok none := rfl
example : terminal_size devTtyZero env80x24 = Except.ok (some (⟨80⟩, ⟨24⟩)) := rfl
example : terminal_size_using_env envNonUnicodeCols = Except.error Panic.notUnicode := rfl

theorem clamp_id (n : Nat) : (if n > 0 then n else 0) = n := by
  cases n <;> simp

theorem ts_eq_env_of_fd_zero (d : DeviceState) (env : EnvMap)
    (h : terminal_size_using_fd d = some (⟨0⟩, ⟨0⟩)) :
    terminal_size d env = terminal_size_using_env env := by
  unfold terminal_size
  rw [h]

theorem ts_eq_ok_fd_of_fd_ne_zero (d : DeviceState) (env : EnvMap)
    (h : terminal_size_using_fd d ≠ some (⟨0⟩, ⟨0⟩)) :
    terminal_size d env = Except.ok (terminal_size_using_fd d) := by
  unfold terminal_size
  cases hfd : terminal_size_using_fd d with
  | none => rfl
  | some p =>
    obtain ⟨⟨w⟩, ⟨r⟩⟩ := p
    rw [hfd] at h
    cases w with
    | zero =>
      cases r with
      | zero => exact absurd rfl h
      | succ r => rfl
    | succ w => cases r <;> rfl

theorem env_no_zero_pair (env : EnvMap) (w r : Nat)
    (hres : terminal_size_using_env env = Except.ok (some (⟨w⟩, ⟨r⟩))) :
    ¬(w = 0 ∧ r = 0) := by
  unfold terminal_size_using_env at hres
  cases hc : get_u16_from_env env COLUMNS with
  | error e => rw [hc] at hres; exact absurd hres (by simp)
  | ok c =>
    cases hr : get_u16_from_env env LINES with
    | error e => rw [hc, hr] at hres; exact absurd hres (by simp)
    | ok r2 =>
      rw [hc, hr] at hres
      dsimp only at hres
      by_cases hz : (r2 == 0 && c == 0) = true
      · rw [if_pos hz] at hres; exact absurd hres (by simp)
      · rw [if_neg hz] at hres
        simp only [Except.ok.injEq, Option.some.injEq, Prod.mk.injEq,
          Width.mk.injEq, Height.mk.injEq] at hres
        obtain ⟨hcw, hrr⟩ := hres
        subst hcw; subst hrr
        simp only [Bool.and_eq_true, beq_iff_eq, not_and] at hz
        rintro ⟨rfl, rfl⟩
        exact hz rfl rfl

/-- C1: terminal_size returns the environment-fallback result exactly when
the device query returned the present pair (Width 0, Height 0); in every
other case, including an absent device result and any present pair with a
non-zero field, it returns the device-query result unchanged. -/
theorem c1_dispatcher_fallback_exactly_on_zero_pair (d : DeviceState) (env : EnvMap) :
    (terminal_size_using_fd d = some (⟨0⟩, ⟨0⟩) →
      terminal_size d env = terminal_size_using_env env) ∧
    (terminal_size_using_fd d ≠ some (⟨0⟩, ⟨0⟩) →
      terminal_size d env = Except.ok (terminal_size_using_fd d)) :=
  ⟨fun h => ts_eq_env_of_fd_zero d env h,
   fun h => ts_eq_ok_fd_of_fd_ne_zero d env h⟩

/-- Witness for C1 at the tty reporting zero in both dimensions. -/
theorem c1_witness :
    terminal_size devTtyZero env80x24 = terminal_size_using_env env80x24 :=
  (c1_dispatcher_fallback_exactly_on_zero_pair devTtyZero env80x24).1 rfl

/-- C2 counterexample: when standard output is not a tty and the
environment holds COLUMNS=80 and LINES=24, terminal_size returns absent,
not the pair (Width 80, Height 24) the claim demands. -/
theorem c2_counterexample :
    terminal_size devNoTty env80x24 = Except.ok none ∧
    (Except.ok none : Except Panic (Option (Width × Height))) ≠
      Except.ok (some (⟨80⟩, ⟨24⟩)) :=
  ⟨rfl, by simp⟩

/-- C2 (amended): if the device reports (0,0) on a tty and the environment
has COLUMNS=80 and LINES=24 set, terminal_size returns
(Width 80, Height 24). -/
theorem c2_tty_zero_env_80_24 (d : DeviceState) (env : EnvMap)
    (htty : d.isTty = true)
    (hr : d.winsize.ws_row = 0) (hc : d.winsize.ws_col = 0)
    (hCols : env COLUMNS = some (OsString.unicode str80))
    (hLines : env LINES = some (OsString.unicode str24)) :
    terminal_size d env = Except.ok (some (⟨80⟩, ⟨24⟩)) := by
  have hfd : terminal_size_using_fd d = some (⟨0⟩, ⟨0⟩) := by
    simp [terminal_size_using_fd, htty, hr, hc]
  rw [ts_eq_env_of_fd_zero d env hfd]
  unfold terminal_size_using_env get_u16_from_env
  rw [hCols, hLines]
  rfl

/-- Witness for C2 (amended) at the tty reporting zero with
COLUMNS=80 and LINES=24. -/
theorem c2_witness :
    terminal_size devTtyZero env80x24 = Except.ok (some (⟨80⟩, ⟨24⟩)) :=
  c2_tty_zero_env_80_24 devTtyZero env80x24 rfl rfl rfl rfl rfl

/-- C3: when COLUMNS and LINES both read back without a panic (unset
counting as 0), the environment strategy is absent exactly when both
parsed values are 0, and otherwise the present pair
(Width columns, Height rows), also when exactly one value is 0. -/
theorem c3_env_strategy_absent_iff_both_zero (env : EnvMap) (c r : Nat)
    (hc : get_u16_from_env env COLUMNS = Except.ok c)
    (hr : get_u16_from_env env LINES = Except.ok r) :
    (c = 0 ∧ r = 0 → terminal_size_using_env env = Except.ok none) ∧
    (¬(c = 0 ∧ r = 0) →
      terminal_size_using_env env = Except.ok (some (⟨c⟩, ⟨r⟩))) := by
  unfold terminal_size_using_env
  rw [hc, hr]
  dsimp only
  constructor
  · rintro ⟨rfl, rfl⟩; rfl
  · intro hnz
    rw [if_neg]
    simp only [Bool.and_eq_true, beq_iff_eq]
    rintro ⟨rfl, rfl⟩
    exact hnz ⟨rfl, rfl⟩

/-- Witness for C3 with COLUMNS=80 and LINES=24. -/
theorem c3_witness :
    terminal_size_using_env env80x24 = Except.ok (some (⟨80⟩, ⟨24⟩)) :=
  (c3_env_strategy_absent_iff_both_zero env80x24 80 24 rfl rfl).2 (by simp)

/-- C4: on a tty the device strategy always returns a present pair, each
field is the report field when strictly positive and 0 otherwise, and a
report of zero in both dimensions yields the present pair
(Width 0, Height 0), not absent. -/
theorem c4_fd_tty_present_clamped (d : DeviceState) (htty : d.isTty = true) :
    ∃ cols rows : Nat,
      terminal_size_using_fd d = some (⟨cols⟩, ⟨rows⟩) ∧
      (0 < d.winsize.ws_col → cols = d.winsize.ws_col) ∧
      (¬ 0 < d.winsize.ws_col → cols = 0) ∧
      (0 < d.winsize.ws_row → rows = d.winsize.ws_row) ∧
      (¬ 0 < d.winsize.ws_row → rows = 0) ∧
      (d.winsize.ws_row = 0 ∧ d.winsize.ws_col = 0 →
        terminal_size_using_fd d = some (⟨0⟩, ⟨0⟩)) := by
  refine ⟨if d.winsize.ws_col > 0 then d.winsize.ws_col else 0,
          if d.winsize.ws_row > 0 then d.winsize.ws_row else 0,
          ?_, ?_, ?_, ?_, ?_, ?_⟩
  · simp [terminal_size_using_fd, htty]
  · intro h; rw [if_pos h]
  · intro h; rw [if_neg h]
  · intro h; rw [if_pos h]
  · intro h; rw [if_neg h]
  · rintro ⟨h1, h2⟩; simp [terminal_size_using_fd, htty, h1, h2]

/-- Witness for C4 at the tty reporting 24 rows and 80 columns. -/
theorem c4_witness :
    ∃ cols rows : Nat,
      terminal_size_using_fd devTty80x24 = some (⟨cols⟩, ⟨rows⟩) ∧
      (0 < devTty80x24.winsize.ws_col → cols = devTty80x24.winsize.ws_col) ∧
      (¬ 0 < devTty80x24.winsize.ws_col → cols = 0) ∧
      (0 < devTty80x24.winsize.ws_row → rows = devTty80x24.winsize.ws_row) ∧
      (¬ 0 < devTty80x24.winsize.ws_row → rows = 0) ∧
      (devTty80x24.winsize.ws_row = 0 ∧ devTty80x24.winsize.ws_col = 0 →
        terminal_size_using_fd devTty80x24 = some (⟨0⟩, ⟨0⟩)) :=
  c4_fd_tty_present_clamped devTty80x24 rfl

/-- C5: whenever terminal_size returns a present pair, that pair is not
(Width 0, Height 0), for every device report and environment. -/
theorem c5_public_pair_never_zero_zero (d : DeviceState) (env : EnvMap) (w r : Nat)
    (hres : terminal_size d env = Except.ok (some (⟨w⟩, ⟨r⟩))) :
    ¬(w = 0 ∧ r = 0) := by
  cases hfd : terminal_size_using_fd d with
  | none =>
    rw [ts_eq_ok_fd_of_fd_ne_zero d env (by rw [hfd]; simp), hfd] at hres
    exact absurd hres (by simp)
  | some p =>
    obtain ⟨⟨w2⟩, ⟨r2⟩⟩ := p
    by_cases hz : w2 = 0 ∧ r2 = 0
    · obtain ⟨rfl, rfl⟩ := hz
      rw [ts_eq_env_of_fd_zero d env hfd] at hres
      exact env_no_zero_pair env w r hres
    · rw [ts_eq_ok_fd_of_fd_ne_zero d env ?_, hfd] at hres
      · simp only [Except.ok.injEq, Option.some.injEq, Prod.mk.injEq,
          Width.mk.injEq, Height.mk.injEq] at hres
        obtain ⟨rfl, rfl⟩ := hres
        exact hz
      · rw [hfd]
        intro hcontra
        simp only [Option.some.injEq, Prod.mk.injEq, Width.mk.injEq,
          Height.mk.injEq] at hcontra
        exact hz hcontra

/-- Witness for C5 at the tty reporting 24 rows and 80 columns. -/
theorem c5_witness : ¬(80 = 0 ∧ 24 = 0) :=
  c5_public_pair_never_zero_zero devTty80x24 envEmpty 80 24 rfl

/-- C6: when standard output is not a tty, the device strategy returns
the ordinary absent value of its total return type, not a fault. -/
theorem c6_fd_not_tty_absent (d : DeviceState) (htty : d.isTty = false) :
    terminal_size_using_fd d = none := by
  simp [terminal_size_using_fd, htty]

/-- Witness for C6 at the non-tty device state. -/
theorem c6_witness : terminal_size_using_fd devNoTty = none :=
  c6_fd_not_tty_absent devNoTty rfl

/-- C7: when COLUMNS or LINES is set to text that does not parse as an
unsigned 16-bit integer, the environment strategy panics instead of
returning a present or absent value. -/
theorem c7_env_malformed_panics (env : EnvMap)
    (hmal : (∃ s, env COLUMNS = some (OsString.unicode s) ∧ parseU16 s = none) ∨
            (∃ s, env LINES = some (OsString.unicode s) ∧ parseU16 s = none)) :
    ∃ e, terminal_size_using_env env = Except.error e := by
  unfold terminal_size_using_env
  rcases hmal with ⟨s, hset, hpar⟩ | ⟨s, hset, hpar⟩
  · have hcol : get_u16_from_env env COLUMNS = Except.error Panic.parseFail := by
      unfold get_u16_from_env
      rw [hset]
      dsimp only
      rw [hpar]
    rw [hcol]
    exact ⟨Panic.parseFail, rfl⟩
  · have hlin : get_u16_from_env env LINES = Except.error Panic.parseFail := by
      unfold get_u16_from_env
      rw [hset]
      dsimp only
      rw [hpar]
    cases hcol : get_u16_from_env env COLUMNS with
    | error e => exact ⟨e, rfl⟩
    | ok c => rw [hlin]; exact ⟨Panic.parseFail, rfl⟩

/-- Witness for C7 with COLUMNS set to non-numeric text. -/
theorem c7_witness : ∃ e, terminal_size_using_env envBadCols = Except.error e :=
  c7_env_malformed_panics envBadCols (Or.inl ⟨strAbc, rfl, rfl⟩)

/-- C8: on a tty reporting at least one non-zero dimension,
terminal_size returns exactly the device-reported pair and the result is
identical for any two environments. -/
theorem c8_device_result_env_independent (d : DeviceState) (env1 env2 : EnvMap)
    (htty : d.isTty = true)
    (hnz : d.winsize.ws_row ≠ 0 ∨ d.winsize.ws_col ≠ 0) :
    terminal_size d env1 =
      Except.ok (some (⟨d.winsize.ws_col⟩, ⟨d.winsize.ws_row⟩)) ∧
    terminal_size d env1 = terminal_size d env2 := by
  have hfd : terminal_size_using_fd d =
      some (⟨d.winsize.ws_col⟩, ⟨d.winsize.ws_row⟩) := by
    simp only [terminal_size_using_fd, htty, Bool.not_true, Bool.false_eq_true,
      if_false, clamp_id]
  have hne : terminal_size_using_fd d ≠ some (⟨0⟩, ⟨0⟩) := by
    rw [hfd]
    intro hcontra
    simp only [Option.some.injEq, Prod.mk.injEq, Width.mk.injEq,
      Height.mk.injEq] at hcontra
    rcases hnz with hr | hc
    · exact hr hcontra.2
    · exact hc hcontra.1
  constructor
  · rw [ts_eq_ok_fd_of_fd_ne_zero d env1 hne, hfd]
  · rw [ts_eq_ok_fd_of_fd_ne_zero d env1 hne, ts_eq_ok_fd_of_fd_ne_zero d env2 hne]

/-- Witness for C8 at the tty reporting 24 rows and 80 columns, with the
80x24 environment and the empty environment. -/
theorem c8_witness :
    terminal_size devTty80x24 env80x24 =
      Except.ok (some (⟨devTty80x24.winsize.ws_col⟩, ⟨devTty80x24.winsize.ws_row⟩)) ∧
    terminal_size devTty80x24 env80x24 = terminal_size devTty80x24 envEmpty :=
  c8_device_result_env_independent devTty80x24 env80x24 envEmpty rfl (Or.inl (by simp [devTty80x24]))

/-- C9: terminal_size is a pure function of the observed tty status,
device report and environment: two calls on identical observed process
state return identical results. -/
theorem c9_terminal_size_deterministic (d1 d2 : DeviceState) (env1 env2 : EnvMap)
    (hd : d1 = d2) (he : env1 = env2) :
    terminal_size d1 env1 = terminal_size d2 env2 := by
  subst hd; subst he; rfl

/-- Witness for C9: two calls on the same state agree. -/
theorem c9_witness :
    terminal_size devTty80x24 env80x24 = terminal_size devTty80x24 env80x24 :=
  c9_terminal_size_deterministic devTty80x24 devTty80x24 env80x24 env80x24 rfl rfl

/-- C10: with COLUMNS set to a non-Unicode value the environment
strategy panics on the text conversion itself, a panic distinct from the
numeric-parse panic. -/
theorem c10_env_non_unicode_distinct_panic :
    terminal_size_using_env envNonUnicodeCols = Except.error Panic.notUnicode ∧
    Panic.notUnicode ≠ Panic.parseFail :=
  ⟨rfl, by simp⟩
